import Mathlib

/-!
Verification of the ordered multi-valued dictionary family in
`pyesgf/multidict.py`: `MultiDict`, `TrackableMultiDict`,
`NestedMultiDict` and `NoVars`.

The embedding is shallow: a `MultiDict` is its backing ordered pair list
(the `_items` attribute), operations are pure functions returning the new
state, and each raised exception is a constructor of `Err` recording the
raise site's exception class and payload.  Keys and values are opaque
types with decidable equality on keys (Python compares keys with `==`).
-/

set_option maxHeartbeats 1000000
set_option linter.unusedSectionVars false

universe u v

variable {K : Type u} {V : Type v} [DecidableEq K] [DecidableEq V]

/-- Errors of the module, one constructor per distinct raise site in the
source.  `keyError`, `keyNotFound`, `multipleValues`, `readOnly` and the
`noVars*` constructors all embed Python `KeyError`s; `indexError` embeds
the `IndexError` raised by `list.pop()` on an empty list (in
`MultiDict.popitem`), and `typeError` the `TypeError` raised by
`MultiDict.pop` on too many arguments. -/
inductive Err (K : Type u) (V : Type v) where
  /-- `raise KeyError(key)` in `__getitem__`, `__delitem__`, `pop`. -/
  | keyError (key : K)
  /-- `raise KeyError('Key not found: %r' % key)` in `getone`. -/
  | keyNotFound (key : K)
  /-- `raise KeyError('Multiple values match %r: %r' % (key, v))` in
  `getone`; carries the full list `v` of matching values. -/
  | multipleValues (key : K) (vs : List V)
  /-- `TypeError` from `pop` when called with more than one extra
  argument. -/
  | typeError
  /-- `IndexError: pop from empty list` from `self._items.pop()` in
  `popitem` on an empty container. -/
  | indexError
  /-- `raise KeyError("NestedMultiDict objects are read-only")` in
  `NestedMultiDict._readonly`. -/
  | readOnly
  /-- `raise KeyError("No key %r: %s" % (key, self.reason))` in
  `NoVars.__getitem__`. -/
  | noVarsNoKey (key : K) (reason : String)
  /-- `raise KeyError("Cannot add variables: %s" % self.reason)` in
  `NoVars.__setitem__` (also `add`, `setdefault`, `update`). -/
  | noVarsCannotAdd (reason : String)
  /-- `raise KeyError("No keys to delete: %s" % self.reason)` in
  `NoVars.__delitem__` (also `clear`, `pop`, `popitem`). -/
  | noVarsNoDelete (reason : String)
  deriving DecidableEq

/-- Whether the embedded exception is a Python `KeyError` (as opposed to
`IndexError` or `TypeError`). -/
def Err.isKeyError : Err K V → Bool
  | .typeError => false
  | .indexError => false
  | _ => true

/-- The state of a `MultiDict`: its `_items` attribute, an ordered list of
key/value pairs with duplicates allowed. -/
structure MultiDict (K : Type u) (V : Type v) where
  _items : List (K × V)
  deriving DecidableEq

namespace MultiDict

/-- `__init__` from one positional pair-sequence argument:
`self._items = list(args[0])` (a fresh list copying the source's pairs in
order). -/
def init (pairs : List (K × V)) : MultiDict K V :=
  ⟨pairs⟩

/-- `__getitem__`: scan `reversed(self._items)`, return the value of the
first pair (in reverse order, so the last in forward order) whose key
equals `key`; `raise KeyError(key)` if none matches. -/
def getitem (m : MultiDict K V) (key : K) : Except (Err K V) V :=
  match m._items.reverse.find? (fun p => decide (p.1 = key)) with
  | some p => Except.ok p.2
  | none => Except.error (Err.keyError key)

/-- `get(key, default)` inherited from `DictMixin`: `self[key]` with the
`KeyError` caught and replaced by `default`. -/
def get (m : MultiDict K V) (key : K) (default : Option V) : Option V :=
  match m.getitem key with
  | Except.ok v => some v
  | Except.error _ => default

/-- `add`: `self._items.append((key, value))`, never overwriting. -/
def add (m : MultiDict K V) (key : K) (value : V) : MultiDict K V :=
  ⟨m._items ++ [(key, value)]⟩

/-- `getall`: collect the values of every pair with `key == k`, in forward
(insertion) order; an empty list, not an error, when none matches. -/
def getall (m : MultiDict K V) (key : K) : List V :=
  (m._items.filter (fun p => decide (key = p.1))).map Prod.snd

/-- `getone`: `v = self.getall(key)`; raise `KeyError('Key not found…')`
when `v` is empty, `KeyError('Multiple values match…')` carrying `v` when
`len(v) > 1`, else return `v[0]`. -/
def getone (m : MultiDict K V) (key : K) : Except (Err K V) V :=
  match m.getall key with
  | [] => Except.error (Err.keyNotFound key)
  | [v] => Except.ok v
  | v1 :: v2 :: rest => Except.error (Err.multipleValues key (v1 :: v2 :: rest))

/-- `__delitem__`: delete every pair whose key matches, scanning indices
downward (the net effect on the list is a filter keeping order); raise
`KeyError(key)` when nothing matched. -/
def delitem (m : MultiDict K V) (key : K) : Except (Err K V) (MultiDict K V) :=
  if m._items.any (fun p => decide (p.1 = key)) then
    Except.ok ⟨m._items.filter (fun p => decide (¬ p.1 = key))⟩
  else
    Except.error (Err.keyError key)

/-- `__setitem__`: `del self[key]` with the `KeyError` swallowed, then
append `(key, value)`. -/
def setitem (m : MultiDict K V) (key : K) (value : V) : MultiDict K V :=
  match m.delitem key with
  | Except.ok m2 => m2.add key value
  | Except.error _ => m.add key value

/-- `__contains__`: forward scan for a pair whose key equals `key`. -/
def contains (m : MultiDict K V) (key : K) : Bool :=
  m._items.any (fun p => decide (p.1 = key))

/-- `clear`: `self._items = []`. -/
def clear (_m : MultiDict K V) : MultiDict K V :=
  ⟨[]⟩

/-- `setdefault`: forward scan; return the first value matching `key` and
leave the map unchanged, else append `(key, default)` and return
`default`. -/
def setdefault (m : MultiDict K V) (key : K) (default : V) :
    V × MultiDict K V :=
  match m._items.find? (fun p => decide (key = p.1)) with
  | some p => (p.2, m)
  | none => (default, ⟨m._items ++ [(key, default)]⟩)

/-- Helper for `pop`: the forward-index loop of the source, returning the
value of the first pair whose key matches together with the list with
exactly that pair deleted, or `none` when no pair matches. -/
def popFirst (key : K) : List (K × V) → Option (V × List (K × V))
  | [] => none
  | p :: rest =>
    if p.1 = key then some (p.2, rest)
    else
      match popFirst key rest with
      | some (v, rest2) => some (v, p :: rest2)
      | none => none

/-- `pop(key, *args)`: `TypeError` when more than one extra argument is
given; else remove and return the value of the first pair matching `key`;
when none matches, return the supplied default if any, else
`raise KeyError(key)`. -/
def pop (m : MultiDict K V) (key : K) (args : List V) :
    Except (Err K V) (V × MultiDict K V) :=
  if args.length > 1 then Except.error Err.typeError
  else
    match popFirst key m._items with
    | some (v, items2) => Except.ok (v, ⟨items2⟩)
    | none =>
      match args with
      | a :: _ => Except.ok (a, m)
      | [] => Except.error (Err.keyError key)

/-- `popitem`: `return self._items.pop()` — removes and returns the last
pair; on the empty list Python raises `IndexError: pop from empty list`. -/
def popitem (m : MultiDict K V) : Except (Err K V) ((K × V) × MultiDict K V) :=
  match m._items.getLast? with
  | some p => Except.ok (p, ⟨m._items.dropLast⟩)
  | none => Except.error Err.indexError

/-- `items`: `return self._items[:]` (a copy of the backing list). -/
def items (m : MultiDict K V) : List (K × V) :=
  m._items

/-- `__len__`: `len(self._items)`. -/
def len (m : MultiDict K V) : Nat :=
  m._items.length

/-- `update` with one positional pair-list (the `DictMixin.update`
semantics: `self[k] = v` for each pair in order; the duplicate-key
`UserWarning` is advisory and does not change the state). -/
def update (m : MultiDict K V) (lst : List (K × V)) : MultiDict K V :=
  lst.foldl (fun acc kv => acc.setitem kv.1 kv.2) m

end MultiDict

/-- A notification delivered to the `tracker` callback of
`TrackableMultiDict`: the source invokes `self.tracker(self, key, value)`,
`self.tracker(self, key)` or `self.tracker(self)` depending on the
operation; the first argument is always the container itself and is not
recorded. -/
inductive Notification (K : Type u) (V : Type v) where
  | keyValue (key : K) (value : V)
  | keyOnly (key : K)
  | noKey
  deriving DecidableEq

namespace TrackableMultiDict

/-- `TrackableMultiDict.__setitem__`: base `__setitem__`, then
`self.tracker(self, key, value)`. -/
def setitem (m : MultiDict K V) (key : K) (value : V) :
    MultiDict K V × List (Notification K V) :=
  (m.setitem key value, [Notification.keyValue key value])

/-- `TrackableMultiDict.add`: base `add`, then
`self.tracker(self, key, value)`. -/
def add (m : MultiDict K V) (key : K) (value : V) :
    MultiDict K V × List (Notification K V) :=
  (m.add key value, [Notification.keyValue key value])

/-- `TrackableMultiDict.__delitem__`: base `__delitem__` first (which
raises before any notification when the key is absent), then
`self.tracker(self, key)`. -/
def delitem (m : MultiDict K V) (key : K) :
    Except (Err K V) (MultiDict K V × List (Notification K V)) :=
  match m.delitem key with
  | Except.ok m2 => Except.ok (m2, [Notification.keyOnly key])
  | Except.error e => Except.error e

/-- `TrackableMultiDict.clear`: base `clear`, then `self.tracker(self)`. -/
def clear (m : MultiDict K V) : MultiDict K V × List (Notification K V) :=
  (m.clear, [Notification.noKey])

/-- `TrackableMultiDict.setdefault`: base `setdefault`, then
`self.tracker(self, key, result)`. -/
def setdefault (m : MultiDict K V) (key : K) (default : V) :
    (V × MultiDict K V) × List (Notification K V) :=
  (m.setdefault key default,
   [Notification.keyValue key (m.setdefault key default).1])

/-- `TrackableMultiDict.pop`: base `pop` first (raising before any
notification on failure), then `self.tracker(self, key)`. -/
def pop (m : MultiDict K V) (key : K) (args : List V) :
    Except (Err K V) ((V × MultiDict K V) × List (Notification K V)) :=
  match m.pop key args with
  | Except.ok r => Except.ok (r, [Notification.keyOnly key])
  | Except.error e => Except.error e

/-- `TrackableMultiDict.popitem`: base `popitem` first (raising before any
notification on the empty container), then `self.tracker(self)`. -/
def popitem (m : MultiDict K V) :
    Except (Err K V) (((K × V) × MultiDict K V) × List (Notification K V)) :=
  match m.popitem with
  | Except.ok r => Except.ok (r, [Notification.noKey])
  | Except.error e => Except.error e

/-- The base `DictMixin.update` loop as run on a `TrackableMultiDict`:
`self[k] = v` for each pair dispatches dynamically to the trackable
`__setitem__`, so each pair both mutates and notifies. -/
def updateFold (m : MultiDict K V) (lst : List (K × V)) :
    MultiDict K V × List (Notification K V) :=
  lst.foldl
    (fun acc2 kv =>
      ((TrackableMultiDict.setitem acc2.1 kv.1 kv.2).1,
        acc2.2 ++ (TrackableMultiDict.setitem acc2.1 kv.1 kv.2).2))
    (m, [])

/-- `TrackableMultiDict.update` with one positional pair-list: the base
update loop (per-pair trackable `__setitem__`), then the final
`self.tracker(self)` with no key. -/
def update (m : MultiDict K V) (lst : List (K × V)) :
    MultiDict K V × List (Notification K V) :=
  ((updateFold m lst).1, (updateFold m lst).2 ++ [Notification.noKey])

/-- `TrackableMultiDict.copy`: `return MultiDict(self)` — a plain,
untracked MultiDict built from the same pairs. -/
def copy (m : MultiDict K V) : MultiDict K V :=
  MultiDict.init m.items

end TrackableMultiDict

/-- The state of a `NestedMultiDict`: the tuple `self.dicts` of component
containers, fixed at construction and never mutated afterwards. -/
structure NestedMultiDict (K : Type u) (V : Type v) where
  dicts : List (MultiDict K V)
  deriving DecidableEq

namespace NestedMultiDict

/-- `NestedMultiDict.__getitem__`: for each component in order, evaluate
`d.get(key, _dummy)` and return the first result that is not the `_dummy`
sentinel (here: the first `some`); `raise KeyError(key)` when every
component misses. -/
def getitem (n : NestedMultiDict K V) (key : K) : Except (Err K V) V :=
  match n.dicts.findSome? (fun d => (d.getitem key).toOption) with
  | some v => Except.ok v
  | none => Except.error (Err.keyError key)

/-- `NestedMultiDict.getall`: `result = []`, then
`result.extend(d.getall(key))` for each component in order. -/
def getall (n : NestedMultiDict K V) (key : K) : List V :=
  n.dicts.foldl (fun result d => result ++ d.getall key) []

/-- `NestedMultiDict.__contains__`: true iff some component contains the
key. -/
def contains (n : NestedMultiDict K V) (key : K) : Bool :=
  n.dicts.any (fun d => d.contains key)

/-- `NestedMultiDict.__len__`: `v = 0`, then `v += len(d)` for each
component. -/
def len (n : NestedMultiDict K V) : Nat :=
  n.dicts.foldl (fun v d => v + d.len) 0

/-- `_readonly` (bound to `__setitem__`): raise the read-only `KeyError`
unconditionally, before touching any state. -/
def setitem (_n : NestedMultiDict K V) (_key : K) (_value : V) :
    Except (Err K V) (NestedMultiDict K V) :=
  Except.error Err.readOnly

/-- `_readonly` (bound to `add`). -/
def add (_n : NestedMultiDict K V) (_key : K) (_value : V) :
    Except (Err K V) (NestedMultiDict K V) :=
  Except.error Err.readOnly

/-- `_readonly` (bound to `__delitem__`). -/
def delitem (_n : NestedMultiDict K V) (_key : K) :
    Except (Err K V) (NestedMultiDict K V) :=
  Except.error Err.readOnly

/-- `_readonly` (bound to `clear`). -/
def clear (_n : NestedMultiDict K V) :
    Except (Err K V) (NestedMultiDict K V) :=
  Except.error Err.readOnly

/-- `_readonly` (bound to `setdefault`). -/
def setdefault (_n : NestedMultiDict K V) (_key : K) (_default : V) :
    Except (Err K V) (NestedMultiDict K V) :=
  Except.error Err.readOnly

/-- `_readonly` (bound to `pop`). -/
def pop (_n : NestedMultiDict K V) (_key : K) (_args : List V) :
    Except (Err K V) (NestedMultiDict K V) :=
  Except.error Err.readOnly

/-- `_readonly` (bound to `popitem`). -/
def popitem (_n : NestedMultiDict K V) :
    Except (Err K V) (NestedMultiDict K V) :=
  Except.error Err.readOnly

/-- `_readonly` (bound to `update`). -/
def update (_n : NestedMultiDict K V) (_lst : List (K × V)) :
    Except (Err K V) (NestedMultiDict K V) :=
  Except.error Err.readOnly

end NestedMultiDict

/-- The state of a `NoVars` container: only its `reason` string. -/
structure NoVars where
  reason : String
  deriving DecidableEq

namespace NoVars

/-- `NoVars.__init__`: `self.reason = reason or 'N/A'` — Python `or`
replaces both `None` and the falsy empty string by the default. -/
def init (reason : Option String) : NoVars :=
  ⟨match reason with
    | none => "N/A"
    | some r => if r = "" then "N/A" else r⟩

/-- `NoVars.__getitem__`:
`raise KeyError("No key %r: %s" % (key, self.reason))`. -/
def getitem (n : NoVars) (key : K) : Except (Err K V) V :=
  Except.error (Err.noVarsNoKey key n.reason)

/-- `NoVars.__setitem__`:
`raise KeyError("Cannot add variables: %s" % self.reason)`. -/
def setitem (n : NoVars) (_key : K) (_value : V) : Except (Err K V) NoVars :=
  Except.error (Err.noVarsCannotAdd n.reason)

/-- `add = __setitem__`. -/
def add (n : NoVars) (key : K) (value : V) : Except (Err K V) NoVars :=
  setitem n key value

/-- `setdefault = __setitem__`. -/
def setdefault (n : NoVars) (key : K) (default : V) : Except (Err K V) NoVars :=
  setitem n key default

/-- `update = __setitem__` (the starred signature absorbs any
arguments). -/
def update (n : NoVars) (_lst : List (K × V)) : Except (Err K V) NoVars :=
  Except.error (Err.noVarsCannotAdd n.reason)

/-- `NoVars.__delitem__`:
`raise KeyError("No keys to delete: %s" % self.reason)`. -/
def delitem (n : NoVars) (_key : K) : Except (Err K V) NoVars :=
  Except.error (Err.noVarsNoDelete n.reason)

/-- `clear = __delitem__`. -/
def clear (n : NoVars) : Except (Err K V) NoVars :=
  Except.error (Err.noVarsNoDelete n.reason)

/-- `pop = __delitem__`. -/
def pop (n : NoVars) (_key : K) (_args : List V) : Except (Err K V) NoVars :=
  Except.error (Err.noVarsNoDelete n.reason)

/-- `popitem = __delitem__`. -/
def popitem (n : NoVars) : Except (Err K V) NoVars :=
  Except.error (Err.noVarsNoDelete n.reason)

/-- `NoVars.get`: `return default`, always. -/
def get (_n : NoVars) (_key : K) (default : Option V) : Option V :=
  default

/-- `NoVars.getall`: `return []`, always. -/
def getall (_n : NoVars) (_key : K) : List V :=
  []

/-- `NoVars.getone`: `return self[key]` — always raises via
`__getitem__`. -/
def getone (n : NoVars) (key : K) : Except (Err K V) V :=
  getitem n key

/-- `NoVars.__contains__`: always false. -/
def contains (_n : NoVars) (_key : K) : Bool :=
  false

/-- `NoVars.__len__`: always 0. -/
def len (_n : NoVars) : Nat :=
  0

/-- `NoVars.copy`: `return self` — the very same object, not a fresh
container. -/
def copy (n : NoVars) : NoVars :=
  n

end NoVars

/-- The exception message of the two `NoVars` mutating raise sites, as
formatted by the source (`"Cannot add variables: %s" % reason` and
`"No keys to delete: %s" % reason`); `none` for any other error. -/
def Err.noVarsMessage : Err K V → Option String
  | Err.noVarsCannotAdd reason => some ("Cannot add variables: " ++ reason)
  | Err.noVarsNoDelete reason => some ("No keys to delete: " ++ reason)
  | _ => none

section ListLemmas

/-- `find?` is the head of the filtered list. -/
theorem find?_eq_head?_filter (p : α → Bool) (l : List α) :
    l.find? p = (l.filter p).head? := by
  induction l with
  | nil => rfl
  | cons a l ih =>
    by_cases h : p a = true
    · rw [List.find?_cons_of_pos l h, List.filter_cons_of_pos h]
      rfl
    · rw [List.find?_cons_of_neg l h, List.filter_cons_of_neg h, ih]

/-- `find?` over the reversed list is the last element of the filtered
list. -/
theorem find?_reverse_eq_getLast?_filter (p : α → Bool) (l : List α) :
    l.reverse.find? p = (l.filter p).getLast? := by
  rw [find?_eq_head?_filter, List.filter_reverse, List.head?_reverse]

end ListLemmas

/-- The reverse-scan of `__getitem__` finds exactly the last matching pair
of the forward filter used by `getall`. -/
theorem MultiDict.getitem_eq_getLast?_getall (m : MultiDict K V) (key : K) :
    m.getitem key =
      match (m.getall key).getLast? with
      | some v => Except.ok v
      | none => Except.error (Err.keyError key) := by
  unfold MultiDict.getitem MultiDict.getall
  rw [find?_reverse_eq_getLast?_filter]
  have hpred : ∀ p : K × V, (decide (p.1 = key)) = (decide (key = p.1)) :=
    fun p => decide_eq_decide.mpr eq_comm
  rw [List.filter_congr (fun p _ => hpred p)]
  rw [List.getLast?_map]
  cases (m._items.filter (fun p => decide (key = p.1))).getLast? with
  | none => rfl
  | some p => rfl

/-- C1: `get(k)` returns the value of the last pair with key `k` (the last
element of `getall(k)`), failing with the key-not-found `KeyError` exactly
when no pair has key `k`; `getall(k)` returns all values under `k` in
insertion order, and after `add(k, v1); add(k, v2)` we get
`get(k) = v2` and `getall(k) = previous values ++ [v1, v2]`. -/
theorem C1_get_last_getall_order (m : MultiDict K V) (k : K) (v1 v2 : V) :
    (m.getitem k = Except.error (Err.keyError k) ↔ m.getall k = [])
    ∧ (∀ v : V, m.getitem k = Except.ok v ↔ (m.getall k).getLast? = some v)
    ∧ ((m.add k v1).add k v2).getitem k = Except.ok v2
    ∧ ((m.add k v1).add k v2).getall k = m.getall k ++ [v1, v2] := by
  have hmain := m.getitem_eq_getLast?_getall k
  have hgetall : ((m.add k v1).add k v2).getall k = m.getall k ++ [v1, v2] := by
    unfold MultiDict.getall MultiDict.add
    simp [List.filter_append]
  refine ⟨?_, ?_, ?_, hgetall⟩
  · rw [hmain]
    cases hl : (m.getall k).getLast? with
    | none =>
      simp only [List.getLast?_eq_none_iff] at hl
      simp [hl]
    | some v =>
      constructor
      · intro h; exact absurd h (by simp)
      · intro h; rw [h] at hl; simp at hl
  · intro v
    rw [hmain]
    cases hl : (m.getall k).getLast? with
    | none => simp
    | some w =>
      constructor
      · intro h
        have h3 : (Except.ok w : Except (Err K V) V) = Except.ok v := h
        rw [Except.ok.inj h3]
      · intro h
        have h2 : w = v := Option.some.inj h
        show (Except.ok w : Except (Err K V) V) = Except.ok v
        rw [h2]
  · have h2 := MultiDict.getitem_eq_getLast?_getall ((m.add k v1).add k v2) k
    rw [hgetall] at h2
    have h3 : (m.getall k ++ [v1, v2]).getLast? = some v2 := by
      rw [List.getLast?_append]
      rfl
    rw [h3] at h2
    exact h2

/-- C2: `getone(k)` fails with the key-not-found `KeyError` when
`getall(k)` is empty, fails with the multiple-values `KeyError` carrying
the full list of matching values when `getall(k)` has two or more
elements, and returns the unique value when `getall(k)` is a singleton.
`getone` is a pure read: its result type carries no new container state,
so the map is never modified. -/
theorem C2_getone_cases (m : MultiDict K V) (k : K) :
    (m.getall k = [] → m.getone k = Except.error (Err.keyNotFound k))
    ∧ (∀ v : V, m.getall k = [v] → m.getone k = Except.ok v)
    ∧ (2 ≤ (m.getall k).length →
        m.getone k = Except.error (Err.multipleValues k (m.getall k))) := by
  refine ⟨?_, ?_, ?_⟩
  · intro h
    unfold MultiDict.getone
    rw [h]
  · intro v h
    unfold MultiDict.getone
    rw [h]
  · intro h
    unfold MultiDict.getone
    cases hl : m.getall k with
    | nil => rw [hl] at h; simp at h
    | cons a t =>
      cases t with
      | nil => rw [hl] at h; simp at h
      | cons b t2 => rfl

/-- Witness for C2: in the two-value state `[(0, 1), (0, 2)]`,
`getone 0` fails with the multiple-values error carrying `[1, 2]`. -/
theorem C2_getone_cases_witness :
    MultiDict.getone (⟨[(0, 1), (0, 2)]⟩ : MultiDict Nat Nat) 0
      = Except.error (Err.multipleValues 0 [1, 2]) := by
  have h := (C2_getone_cases (⟨[(0, 1), (0, 2)]⟩ : MultiDict Nat Nat) 0).2.2 (by decide)
  exact h

/-- The forward-scan delete-one loop of `pop` on a list whose first match
is the explicit `(k, v)` pair: it returns that value and deletes exactly
that pair. -/
theorem popFirst_of_clean_prefix (k : K) (pre : List (K × V)) (v : V)
    (post : List (K × V)) (hpre : ∀ p ∈ pre, ¬ p.1 = k) :
    MultiDict.popFirst k (pre ++ (k, v) :: post) = some (v, pre ++ post) := by
  induction pre with
  | nil => simp [MultiDict.popFirst]
  | cons a pre ih =>
    have ha : ¬ a.1 = k := hpre a (by simp)
    have ih2 := ih (fun p hp => hpre p (by simp [hp]))
    simp [MultiDict.popFirst, ha, ih2]

/-- The forward-scan loop of `pop` finds nothing when no pair's key
matches. -/
theorem popFirst_eq_none (k : K) (l : List (K × V))
    (h : ∀ p ∈ l, ¬ p.1 = k) : MultiDict.popFirst k l = none := by
  induction l with
  | nil => rfl
  | cons a t ih =>
    have ha : ¬ a.1 = k := h a (by simp)
    simp [MultiDict.popFirst, ha, ih (fun p hp => h p (by simp [hp]))]

/-- C3: when duplicates are present, `pop(k)` removes exactly the first
pair (forward scan) whose key is `k` and returns its value, leaving all
later pairs for `k` intact (`getall(k)` afterwards is the tail of the
previous `getall(k)`); when no pair has key `k`, `pop(k, d)` returns `d`
with the map unchanged and `pop(k)` without default fails with
`KeyError(k)`. -/
theorem C3_pop_first_only (m : MultiDict K V) (k : K) (d : V) :
    (∀ pre (v : V) post, m._items = pre ++ (k, v) :: post →
      (∀ p ∈ pre, ¬ p.1 = k) →
      m.pop k [] = Except.ok (v, ⟨pre ++ post⟩)
      ∧ m.pop k [d] = Except.ok (v, ⟨pre ++ post⟩)
      ∧ MultiDict.getall ⟨pre ++ post⟩ k = (m.getall k).tail
      ∧ m.getall k = v :: MultiDict.getall ⟨pre ++ post⟩ k)
    ∧ (m.getall k = [] →
        m.pop k [d] = Except.ok (d, m)
        ∧ m.pop k [] = Except.error (Err.keyError k)) := by
  constructor
  · intro pre v post hitems hpre
    have hpf : MultiDict.popFirst k (pre ++ (k, v) :: post) = some (v, pre ++ post) :=
      popFirst_of_clean_prefix k pre v post hpre
    have hfilpre : pre.filter (fun p => decide (k = p.1)) = [] := by
      rw [List.filter_eq_nil_iff]
      intro p hp
      simp only [decide_eq_true_eq]
      exact fun h2 => hpre p hp h2.symm
    have hget_m : m.getall k
        = v :: (post.filter (fun p => decide (k = p.1))).map Prod.snd := by
      unfold MultiDict.getall
      rw [hitems, List.filter_append, hfilpre,
        List.filter_cons_of_pos (by simp)]
      rfl
    have hget_new : MultiDict.getall (⟨pre ++ post⟩ : MultiDict K V) k
        = (post.filter (fun p => decide (k = p.1))).map Prod.snd := by
      unfold MultiDict.getall
      rw [List.filter_append, hfilpre]
      rfl
    refine ⟨?_, ?_, ?_, ?_⟩
    · unfold MultiDict.pop
      rw [hitems, hpf]
      rfl
    · unfold MultiDict.pop
      rw [hitems, hpf]
      rfl
    · rw [hget_new, hget_m]
      rfl
    · rw [hget_new, hget_m]
  · intro hempty
    have hall : ∀ p ∈ m._items, ¬ p.1 = k := by
      have hfil : m._items.filter (fun p => decide (k = p.1)) = [] := by
        unfold MultiDict.getall at hempty
        exact List.map_eq_nil_iff.mp hempty
      intro p hp h2
      have hmem : p ∈ m._items.filter (fun p => decide (k = p.1)) := by
        rw [List.mem_filter]
        exact ⟨hp, by simp [h2]⟩
      rw [hfil] at hmem
      simp at hmem
    have hpf : MultiDict.popFirst k m._items = none :=
      popFirst_eq_none k m._items hall
    constructor
    · unfold MultiDict.pop
      rw [hpf]
      rfl
    · unfold MultiDict.pop
      rw [hpf]
      rfl

/-- Witness for C3: in `[(1, 10), (0, 20), (0, 30)]`, `pop 0` removes
only the first pair for key `0`, returning `20`, and the remaining map
still holds the duplicate `30` under key `0`. -/
theorem C3_pop_first_only_witness :
    MultiDict.pop (⟨[(1, 10), (0, 20), (0, 30)]⟩ : MultiDict Nat Nat) 0 []
      = Except.ok (20, ⟨[(1, 10), (0, 30)]⟩)
    ∧ MultiDict.getall (⟨[(1, 10), (0, 30)]⟩ : MultiDict Nat Nat) 0 = [30] := by
  have h := (C3_pop_first_only (⟨[(1, 10), (0, 20), (0, 30)]⟩ : MultiDict Nat Nat)
    0 99).1 [(1, 10)] 20 [(0, 30)] rfl (by decide)
  exact ⟨h.1, by decide⟩

/-- C4 counterexample: the claim says `popitem()` on an empty container
fails with KeyNotFound, but the source's `return self._items.pop()` raises
`IndexError: pop from empty list`, which is not in the `KeyError` family
(unlike the failure of `get` on an absent key). -/
theorem C4_counterexample :
    MultiDict.popitem (⟨[]⟩ : MultiDict Nat Nat) = Except.error Err.indexError
    ∧ Err.isKeyError (Err.indexError : Err Nat Nat) = false
    ∧ Err.isKeyError (Err.keyError 0 : Err Nat Nat) = true :=
  ⟨rfl, rfl, rfl⟩

/-- C4 (amended): for every non-empty MultiDict, `popitem()` removes and
returns the last pair of the ordered sequence; on an empty MultiDict it
fails with the `IndexError` of popping an empty list (not a
KeyNotFound-style `KeyError`), and no modified container is produced. -/
theorem C4_popitem_last (m : MultiDict K V) :
    (∀ pre (p : K × V), m._items = pre ++ [p] →
      m.popitem = Except.ok (p, ⟨pre⟩))
    ∧ (m._items = [] → m.popitem = Except.error Err.indexError) := by
  constructor
  · intro pre p h
    unfold MultiDict.popitem
    rw [h, List.getLast?_concat, List.dropLast_concat]
  · intro h
    unfold MultiDict.popitem
    rw [h]
    rfl

/-- Witness for C4: `popitem` on `[(0, 1), (2, 3)]` returns the last pair
`(2, 3)` with remainder `[(0, 1)]`, and on the empty map it fails with the
`IndexError`. -/
theorem C4_popitem_last_witness :
    MultiDict.popitem (⟨[(0, 1), (2, 3)]⟩ : MultiDict Nat Nat)
      = Except.ok ((2, 3), ⟨[(0, 1)]⟩)
    ∧ MultiDict.popitem (⟨([] : List (Nat × Nat))⟩ : MultiDict Nat Nat)
      = Except.error Err.indexError :=
  ⟨(C4_popitem_last ⟨[(0, 1), (2, 3)]⟩).1 [(0, 1)] (2, 3) rfl,
   (C4_popitem_last ⟨[]⟩).2 rfl⟩

/-- C5: rebuilding a MultiDict from `m.items()` yields a container equal
to `m` in entry content and order.  Independence of the new container
holds because `items()` returns `self._items[:]` (a list copy) and
`__init__` wraps its positional argument in `list(...)` (a second copy),
so the two containers share no backing list; the embedding's value
semantics models this copy-on-construction, and a mutation of the rebuilt
container (here an `add`) only extends its own sequence, computed from
`m.items` by appending. -/
theorem C5_items_roundtrip (m : MultiDict K V) (k : K) (v : V) :
    MultiDict.init m.items = m
    ∧ ((MultiDict.init m.items).add k v).items = m.items ++ [(k, v)]
    ∧ m.items = m._items :=
  ⟨rfl, rfl, rfl⟩

/-- The forward membership scan of `__contains__` agrees with the reverse
lookup scan of `__getitem__`: the key is absent exactly when the lookup
(viewed through the `_dummy`-sentinel `get`) produces nothing. -/
theorem MultiDict.contains_eq_false_iff (m : MultiDict K V) (key : K) :
    m.contains key = false ↔ (m.getitem key).toOption = none := by
  unfold MultiDict.getitem MultiDict.contains
  cases hf : m._items.reverse.find? (fun p => decide (p.1 = key)) with
  | none =>
    rw [List.find?_eq_none] at hf
    simp only [Except.toOption]
    constructor
    · intro _
      trivial
    · intro _
      rw [List.any_eq_false]
      intro p hp
      exact hf p (List.mem_reverse.mpr hp)
  | some p =>
    have hpred := List.find?_some hf
    have hmem := List.mem_of_find?_eq_some hf
    simp only [Except.toOption]
    constructor
    · intro hc
      rw [List.any_eq_false] at hc
      exact absurd hpred (hc p (List.mem_reverse.mp hmem))
    · intro h
      exact absurd h (by simp)

/-- Components that do not contain the key contribute nothing to the
first-match scan of `NestedMultiDict.__getitem__`. -/
theorem findSome?_toOption_append (k : K) (pre : List (MultiDict K V))
    (hpre : ∀ d2 ∈ pre, d2.contains k = false) (rest : List (MultiDict K V)) :
    (pre ++ rest).findSome? (fun d => (d.getitem k).toOption)
      = rest.findSome? (fun d => (d.getitem k).toOption) := by
  induction pre with
  | nil => rfl
  | cons a t ih =>
    have ha : (a.getitem k).toOption = none :=
      (MultiDict.contains_eq_false_iff a k).mp (hpre a (by simp))
    rw [List.cons_append, List.findSome?_cons, ha]
    exact ih (fun d2 hd => hpre d2 (by simp [hd]))

/-- The `result.extend(...)` accumulation loop concatenates the per-item
lists in order. -/
theorem foldl_append_eq_flatten {α : Type u} {β : Type v} (f : α → List β)
    (l : List α) (acc : List β) :
    l.foldl (fun r a => r ++ f a) acc = acc ++ (l.map f).flatten := by
  induction l generalizing acc with
  | nil => simp
  | cons a t ih => simp [ih, List.append_assoc]

/-- The `v += len(d)` accumulation loop sums the per-item lengths. -/
theorem foldl_add_eq_sum {α : Type u} (f : α → Nat) (l : List α) (acc : Nat) :
    l.foldl (fun v a => v + f a) acc = acc + (l.map f).sum := by
  induction l generalizing acc with
  | nil => simp
  | cons a t ih => simp [ih, Nat.add_assoc]

/-- C6: on a NestedMultiDict, single-value lookup returns the lookup of
the first component (in sequence order) that contains the key and fails
with `KeyError(key)` when no component contains it; `getall` concatenates
the components' `getall` results in component order; the length is the sum
of the components' lengths; and on the concrete view over
`[{a: 1}, {a: 2, b: 3}]` we get `get a = 1`, `getall a = [1, 2]`,
`getall b = [3]` and `len = 3`. -/
theorem C6_nested_reads (n : NestedMultiDict K V) (k : K) :
    (∀ pre d post, n.dicts = pre ++ d :: post →
      (∀ d2 ∈ pre, d2.contains k = false) → d.contains k = true →
      n.getitem k = d.getitem k)
    ∧ ((∀ d ∈ n.dicts, d.contains k = false) →
        n.getitem k = Except.error (Err.keyError k))
    ∧ n.getall k = (n.dicts.map (fun d => d.getall k)).flatten
    ∧ n.len = (n.dicts.map MultiDict.len).sum
    ∧ NestedMultiDict.getitem
        (⟨[⟨[("a", 1)]⟩, ⟨[("a", 2), ("b", 3)]⟩]⟩ : NestedMultiDict String Nat)
        "a" = Except.ok 1
    ∧ NestedMultiDict.getall
        (⟨[⟨[("a", 1)]⟩, ⟨[("a", 2), ("b", 3)]⟩]⟩ : NestedMultiDict String Nat)
        "a" = [1, 2]
    ∧ NestedMultiDict.getall
        (⟨[⟨[("a", 1)]⟩, ⟨[("a", 2), ("b", 3)]⟩]⟩ : NestedMultiDict String Nat)
        "b" = [3]
    ∧ NestedMultiDict.len
        (⟨[⟨[("a", 1)]⟩, ⟨[("a", 2), ("b", 3)]⟩]⟩ : NestedMultiDict String Nat)
        = 3 := by
  refine ⟨?_, ?_, ?_, ?_, rfl, rfl, rfl, rfl⟩
  · intro pre d post hdicts hpre hd
    unfold NestedMultiDict.getitem
    rw [hdicts, findSome?_toOption_append k pre hpre (d :: post),
      List.findSome?_cons]
    cases hg : d.getitem k with
    | ok v => rfl
    | error e =>
      have hnone : (d.getitem k).toOption = none := by
        rw [hg]
        rfl
      have hc := (MultiDict.contains_eq_false_iff d k).mpr hnone
      rw [hd] at hc
      exact Bool.noConfusion hc
  · intro hall
    unfold NestedMultiDict.getitem
    have h3 := findSome?_toOption_append k n.dicts hall []
    rw [List.append_nil] at h3
    rw [h3]
    rfl
  · unfold NestedMultiDict.getall
    have h := foldl_append_eq_flatten (fun d => MultiDict.getall d k) n.dicts []
    simpa using h
  · unfold NestedMultiDict.len
    have h := foldl_add_eq_sum (MultiDict.len (K := K) (V := V)) n.dicts 0
    simpa [MultiDict.len] using h

/-- Witness for C6: on the view over `[{a: 1}, {a: 2, b: 3}]`, lookup of
`a` equals the first component's own lookup (which yields `1`). -/
theorem C6_nested_reads_witness :
    NestedMultiDict.getitem
      (⟨[⟨[("a", 1)]⟩, ⟨[("a", 2), ("b", 3)]⟩]⟩ : NestedMultiDict String Nat)
      "a"
      = MultiDict.getitem (⟨[("a", 1)]⟩ : MultiDict String Nat) "a" :=
  (C6_nested_reads
    (⟨[⟨[("a", 1)]⟩, ⟨[("a", 2), ("b", 3)]⟩]⟩ : NestedMultiDict String Nat)
    "a").1 [] ⟨[("a", 1)]⟩ [⟨[("a", 2), ("b", 3)]⟩] rfl (by decide) (by decide)

/-- C7: every mutating operation on a NestedMultiDict — `__setitem__`,
`add`, `__delitem__`, `clear`, `setdefault`, `pop`, `popitem`, `update` —
is bound to `_readonly` and fails with the read-only `KeyError` whatever
its arguments; the raise happens before anything is touched, and the
error path carries no modified view or component. -/
theorem C7_nested_readonly (n : NestedMultiDict K V) (k : K) (v d : V)
    (args : List V) (lst : List (K × V)) :
    n.setitem k v = Except.error Err.readOnly
    ∧ n.add k v = Except.error Err.readOnly
    ∧ n.delitem k = Except.error Err.readOnly
    ∧ n.clear = Except.error Err.readOnly
    ∧ n.setdefault k d = Except.error Err.readOnly
    ∧ n.pop k args = Except.error Err.readOnly
    ∧ n.popitem = Except.error Err.readOnly
    ∧ n.update lst = Except.error Err.readOnly :=
  ⟨rfl, rfl, rfl, rfl, rfl, rfl, rfl, rfl⟩

/-- C8: a NoVars container is permanently empty — `getall` is `[]`,
`contains` is false, the length is 0, and `__getitem__` fails with the
no-key `KeyError` citing the configured reason — and every mutating
operation fails with a `KeyError` whose message (as formatted by the
source) ends with the configured reason, producing no changed
container. -/
theorem C8_novars_empty_readonly (n : NoVars) (k : K) (v d : V)
    (args : List V) (lst : List (K × V)) :
    NoVars.getitem (V := V) n k = Except.error (Err.noVarsNoKey k n.reason)
    ∧ NoVars.getall (V := V) n k = []
    ∧ NoVars.contains n k = false
    ∧ NoVars.len n = 0
    ∧ NoVars.get n k (none : Option V) = none
    ∧ (∃ e, NoVars.setitem n k v = Except.error e
        ∧ ∃ s, Err.noVarsMessage e = some (s ++ n.reason))
    ∧ (∃ e, NoVars.add n k v = Except.error e
        ∧ ∃ s, Err.noVarsMessage e = some (s ++ n.reason))
    ∧ (∃ e, NoVars.setdefault n k d = Except.error e
        ∧ ∃ s, Err.noVarsMessage e = some (s ++ n.reason))
    ∧ (∃ e, NoVars.update n lst = Except.error e
        ∧ ∃ s, Err.noVarsMessage e = some (s ++ n.reason))
    ∧ (∃ e, NoVars.delitem (V := V) n k = Except.error e
        ∧ ∃ s, Err.noVarsMessage e = some (s ++ n.reason))
    ∧ (∃ e, NoVars.clear (K := K) (V := V) n = Except.error e
        ∧ ∃ s, Err.noVarsMessage e = some (s ++ n.reason))
    ∧ (∃ e, NoVars.pop n k args = Except.error e
        ∧ ∃ s, Err.noVarsMessage e = some (s ++ n.reason))
    ∧ (∃ e, NoVars.popitem (K := K) (V := V) n = Except.error e
        ∧ ∃ s, Err.noVarsMessage e = some (s ++ n.reason)) :=
  ⟨rfl, rfl, rfl, rfl, rfl,
   ⟨Err.noVarsCannotAdd n.reason, rfl, "Cannot add variables: ", rfl⟩,
   ⟨Err.noVarsCannotAdd n.reason, rfl, "Cannot add variables: ", rfl⟩,
   ⟨Err.noVarsCannotAdd n.reason, rfl, "Cannot add variables: ", rfl⟩,
   ⟨Err.noVarsCannotAdd n.reason, rfl, "Cannot add variables: ", rfl⟩,
   ⟨Err.noVarsNoDelete n.reason, rfl, "No keys to delete: ", rfl⟩,
   ⟨Err.noVarsNoDelete n.reason, rfl, "No keys to delete: ", rfl⟩,
   ⟨Err.noVarsNoDelete n.reason, rfl, "No keys to delete: ", rfl⟩,
   ⟨Err.noVarsNoDelete n.reason, rfl, "No keys to delete: ", rfl⟩⟩

/-- The trackable update loop: its container component evolves exactly as
the base `MultiDict.update` fold, and its notification trace is one
key/value notification per pair, in order. -/
theorem trackable_updateFold_eq (m : MultiDict K V) (lst : List (K × V))
    (acc : List (Notification K V)) :
    lst.foldl
      (fun acc2 kv =>
        ((TrackableMultiDict.setitem acc2.1 kv.1 kv.2).1,
          acc2.2 ++ (TrackableMultiDict.setitem acc2.1 kv.1 kv.2).2))
      (m, acc)
      = (m.update lst,
         acc ++ lst.map (fun kv => Notification.keyValue kv.1 kv.2)) := by
  induction lst generalizing m acc with
  | nil => simp [MultiDict.update]
  | cons a t ih =>
    rw [List.foldl_cons]
    show List.foldl _
      (m.setitem a.1 a.2, acc ++ [Notification.keyValue a.1 a.2]) t = _
    rw [ih]
    simp [MultiDict.update, List.append_assoc]

/-- C9: each trackable mutating operation performs exactly the base
MultiDict behaviour and then notifies with the operation's shape — `add`
and `__setitem__` pass key and value, `__delitem__` (and `pop`) pass the
key only, `clear`, `popitem` and `update` pass no key (the `update` trace
also contains the per-pair key/value notifications produced by the
dispatched `__setitem__` calls, and ends with the no-key notification) —
while a base operation that raises produces no notification at all. -/
theorem C9_trackable_notifications (m : MultiDict K V) (k : K) (v : V)
    (args : List V) (lst : List (K × V)) :
    TrackableMultiDict.add m k v = (m.add k v, [Notification.keyValue k v])
    ∧ TrackableMultiDict.setitem m k v
        = (m.setitem k v, [Notification.keyValue k v])
    ∧ (∀ m2, m.delitem k = Except.ok m2 →
        TrackableMultiDict.delitem m k
          = Except.ok (m2, [Notification.keyOnly k]))
    ∧ (∀ e, m.delitem k = Except.error e →
        TrackableMultiDict.delitem m k = Except.error e)
    ∧ TrackableMultiDict.clear m = (m.clear, [Notification.noKey])
    ∧ (∀ r, m.popitem = Except.ok r →
        TrackableMultiDict.popitem m = Except.ok (r, [Notification.noKey]))
    ∧ (∀ e, m.popitem = Except.error e →
        TrackableMultiDict.popitem m = Except.error e)
    ∧ (∀ r, m.pop k args = Except.ok r →
        TrackableMultiDict.pop m k args
          = Except.ok (r, [Notification.keyOnly k]))
    ∧ (∀ e, m.pop k args = Except.error e →
        TrackableMultiDict.pop m k args = Except.error e)
    ∧ TrackableMultiDict.update m lst
        = (m.update lst,
           lst.map (fun kv => Notification.keyValue kv.1 kv.2)
             ++ [Notification.noKey]) := by
  refine ⟨rfl, rfl, ?_, ?_, rfl, ?_, ?_, ?_, ?_, ?_⟩
  · intro m2 h
    unfold TrackableMultiDict.delitem
    rw [h]
  · intro e h
    unfold TrackableMultiDict.delitem
    rw [h]
  · intro r h
    unfold TrackableMultiDict.popitem
    rw [h]
  · intro e h
    unfold TrackableMultiDict.popitem
    rw [h]
  · intro r h
    unfold TrackableMultiDict.pop
    rw [h]
  · intro e h
    unfold TrackableMultiDict.pop
    rw [h]
  · unfold TrackableMultiDict.update TrackableMultiDict.updateFold
    rw [trackable_updateFold_eq]
    rfl

/-- Witness for C9: deleting key `0` from `[(0, 1)]` succeeds in the base
map, and the trackable delete returns the emptied map together with the
key-only notification. -/
theorem C9_trackable_notifications_witness :
    TrackableMultiDict.delitem (⟨[(0, 1)]⟩ : MultiDict Nat Nat) 0
      = Except.ok (⟨[]⟩, [Notification.keyOnly 0]) :=
  (C9_trackable_notifications (⟨[(0, 1)]⟩ : MultiDict Nat Nat) 0 1 [] []).2.2.1
    ⟨[]⟩ rfl

/-- C10: `NoVars.copy` returns the container itself (`return self`), so
the copy is the identical object: all reads agree with the original and
every mutation attempt fails exactly as on the original. -/
theorem C10_novars_copy_self (n : NoVars) (k : K) (v : V) :
    n.copy = n
    ∧ NoVars.getall (V := V) n.copy k = NoVars.getall (V := V) n k
    ∧ NoVars.getitem (V := V) n.copy k = NoVars.getitem (V := V) n k
    ∧ NoVars.contains n.copy k = NoVars.contains n k
    ∧ NoVars.len n.copy = NoVars.len n
    ∧ NoVars.setitem n.copy k v = NoVars.setitem n k v
    ∧ NoVars.delitem (V := V) n.copy k = NoVars.delitem (V := V) n k :=
  ⟨rfl, rfl, rfl, rfl, rfl, rfl, rfl⟩
